import Mathlib

/-!
Verification of the cache-aside item service (`src/app.js`).

The development shallowly embeds the Express application in Lean:

* JavaScript/JSON values are modelled by the inductive `Json`; JavaScript
  truthiness (`if (cached)`, `if (!name)`, `description || null`) is modelled
  by `Json.truthy` / `jsTruthy`.
* The Redis cache is a partial map from key strings to stored entries.  In the
  source the stored blob is `JSON.stringify(result)` and a hit runs
  `JSON.parse(cached)`; since `JSON.stringify` round-trips on the values this
  program handles and never returns the empty string (see
  `Json.stringify_ne_empty`, so a stored blob is always truthy), we identify a
  stored blob with its `Json` value and model the `if (cached)` truthiness test
  as presence of the key.  An entry also records the TTL it was set with
  (`'EX', ttlSeconds`); expiry itself is enforced by Redis, outside the model.
* Failure of the external adapters is prescribed by boolean flags in `Env`
  (`getFails`, `setFails`, `delFails` for `redis.get/set/del`,
  `storeFails` for `pgPool.query`).  In the source a failing adapter call is a
  rejected promise; `await` turns it into a thrown exception, which the
  embedding models by short-circuiting with an error result.
* Every adapter call is recorded in an event trace (`Event`), which lets the
  theorems talk about "fetch invoked exactly once", "no invalidation
  performed" and the ordering of store mutation versus cache invalidation.
-/

namespace CacheAside

/-- JSON / JavaScript values as handled by the service. -/
inductive Json where
  | null
  | bool (b : Bool)
  | num (n : Int)
  | str (s : String)
  | arr (elems : List Json)
  | obj (fields : List (String × Json))

/-- JavaScript truthiness of a value (`null`, `false`, `0` and `""` are
falsy; arrays and objects are always truthy). -/
def Json.truthy : Json → Bool
  | .null => false
  | .bool b => b
  | .num n => decide (n ≠ 0)
  | .str s => decide (s ≠ "")
  | .arr _ => true
  | .obj _ => true

/-- Truthiness of a possibly-absent (`undefined`) value, as after destructuring
`const { name, description } = req.body`. -/
def jsTruthy : Option Json → Bool
  | none => false
  | some v => v.truthy

/-- The value of a possibly-absent field (`undefined` behaves as `null` in the
positions this program passes it on). -/
def getVal : Option Json → Json
  | none => .null
  | some v => v

/-- `x || null`: the coercion applied to `description` in the POST and PUT
handlers (`description || null`). -/
def orNull (v : Option Json) : Json :=
  match v with
  | some j => if j.truthy then j else .null
  | none => .null

mutual

/-- `JSON.stringify`, used only to justify the cache model: its output is never
the empty string, so a stored blob is always truthy under `if (cached)`. -/
def Json.stringify : Json → String
  | .null => "null"
  | .bool true => "true"
  | .bool false => "false"
  | .num n => toString n
  | .str s => "\"" ++ s ++ "\""
  | .arr xs => "[" ++ stringifyList xs ++ "]"
  | .obj fs => "\x7b" ++ stringifyFields fs ++ "\x7d"

/-- Comma-separated serialization of an array's elements. -/
def stringifyList : List Json → String
  | [] => ""
  | [x] => Json.stringify x
  | x :: y :: xs => Json.stringify x ++ "," ++ stringifyList (y :: xs)

/-- Comma-separated serialization of an object's fields. -/
def stringifyFields : List (String × Json) → String
  | [] => ""
  | [p] => "\"" ++ p.1 ++ "\":" ++ Json.stringify p.2
  | p :: q :: fs => "\"" ++ p.1 ++ "\":" ++ Json.stringify p.2 ++ "," ++ stringifyFields (q :: fs)

end

/-- Adapter calls made while serving a request, in program order. -/
inductive Event where
  | cacheGet (key : String)
  | cacheSet (key : String) (value : Json) (ttl : Nat)
  | cacheDel (key : String)
  | fetchInvoke
  | storeInsert
  | storeUpdate (id : Nat)
  | storeDelete (id : Nat)

/-- Is this event an invocation of the fetch function? -/
def Event.isFetch : Event → Bool
  | .fetchInvoke => true
  | _ => false

/-- Is this event a cache write (`redis.set`)? -/
def Event.isSet : Event → Bool
  | .cacheSet _ _ _ => true
  | _ => false

/-- Is this event a cache invalidation (`redis.del`)? -/
def Event.isDel : Event → Bool
  | .cacheDel _ => true
  | _ => false

/-- Redis contents: each present key holds a value and the TTL it was set
with. -/
def Cache : Type := String → Option (Json × Nat)

/-- Delete a key (`redis.del`); deleting an absent key is a no-op. -/
def Cache.del (c : Cache) (k : String) : Cache :=
  fun x => if x = k then none else c x

/-- Errors escaping `cacheOrFetch`: a rejected `redis.get`, a rejected
`redis.set`, or the fetch function's own (opaque, numbered) store error. -/
inductive CFError where
  | cacheGetErr
  | cacheSetErr
  | fetchErr (e : Nat)

/-- Result of one `cacheOrFetch` call: the value returned (or the error
thrown), the adapter calls made, and the cache contents afterwards. -/
structure CFOutcome where
  result : Except CFError Json
  events : List Event
  cache : Cache

/-- A row of the `items` table.  `name` and `description` hold whatever
JavaScript value the handler passed to the parameterized query (the store
echoes it back via `RETURNING`); `created_at` is the store-assigned
timestamp. -/
structure Item where
  id : Nat
  name : Json
  description : Json
  created_at : String

/-- Prescribed behaviour of the external adapters for one request, together
with the current cache and store state. -/
structure Env where
  cache : Cache
  getFails : Bool
  setFails : Bool
  delFails : Bool
  storeItems : List Item
  nextId : Nat
  storeFails : Bool
  storeErr : Nat
  now : String

/-- The JSON row shape produced by `SELECT id, name, description, created_at`
and by the `RETURNING` clauses. -/
def Item.toJson (it : Item) : Json :=
  .obj [("id", .num (it.id : Int)), ("name", it.name),
        ("description", it.description), ("created_at", .str it.created_at)]

/-!
The cache-aside coordinator, from `src/app.js` lines 29-37:

```js
async function cacheOrFetch(key, fetchFn, ttlSeconds = 60) {
    const cached = await redis.get(key);
    if (cached){
        return JSON.parse(cached);
    }
    const result = await fetchFn();
    await redis.set(key, JSON.stringify(result), 'EX', ttlSeconds);
    return result;
}
```

The fetch function is a zero-argument async closure; since `cacheOrFetch`
invokes it at most once, its behaviour for the call is fully described by the
one outcome it would produce, passed here as `fetch : Except Nat Json`
(`.error e` models a rejected store query).  A rejected `redis.get` or
`redis.set` makes the corresponding `await` throw, so the function aborts with
that error; the `redis.set` call is recorded in the trace even when it fails
(the call was issued), but only a successful call changes the cache.
-/

/-- Shallow embedding of `cacheOrFetch`. -/
def cacheOrFetch (env : Env) (key : String) (fetch : Except Nat Json) (ttlSeconds : Nat) :
    CFOutcome :=
  if env.getFails then
    ⟨.error .cacheGetErr, [.cacheGet key], env.cache⟩
  else
    match env.cache key with
    | some entry =>
        ⟨.ok entry.1, [.cacheGet key], env.cache⟩
    | none =>
        match fetch with
        | .error e =>
            ⟨.error (.fetchErr e), [.cacheGet key, .fetchInvoke], env.cache⟩
        | .ok result =>
            if env.setFails then
              ⟨.error .cacheSetErr,
               [.cacheGet key, .fetchInvoke, .cacheSet key result ttlSeconds], env.cache⟩
            else
              ⟨.ok result,
               [.cacheGet key, .fetchInvoke, .cacheSet key result ttlSeconds],
               fun k => if k = key then some (result, ttlSeconds) else env.cache k⟩

/-- Evaluation: a rejected `redis.get` aborts the call. -/
lemma cacheOrFetch_getfail (env : Env) (key : String) (fetch : Except Nat Json)
    (ttl : Nat) (hg : env.getFails = true) :
    cacheOrFetch env key fetch ttl = ⟨.error .cacheGetErr, [.cacheGet key], env.cache⟩ := by
  simp [cacheOrFetch, hg]

/-- Evaluation: a present key is a hit; nothing else happens. -/
lemma cacheOrFetch_hit (env : Env) (key : String) (entry : Json × Nat)
    (fetch : Except Nat Json) (ttl : Nat)
    (hg : env.getFails = false) (hc : env.cache key = some entry) :
    cacheOrFetch env key fetch ttl = ⟨.ok entry.1, [.cacheGet key], env.cache⟩ := by
  simp [cacheOrFetch, hg, hc]

/-- Evaluation: a miss whose fetch fails aborts with the fetch error. -/
lemma cacheOrFetch_miss_err (env : Env) (key : String) (e : Nat) (ttl : Nat)
    (hg : env.getFails = false) (hc : env.cache key = none) :
    cacheOrFetch env key (.error e) ttl =
      ⟨.error (.fetchErr e), [.cacheGet key, .fetchInvoke], env.cache⟩ := by
  simp [cacheOrFetch, hg, hc]

/-- Evaluation: a miss whose fetch succeeds but whose `redis.set` is rejected
aborts with the set error; the cache is unchanged. -/
lemma cacheOrFetch_miss_setfail (env : Env) (key : String) (v : Json) (ttl : Nat)
    (hg : env.getFails = false) (hs : env.setFails = true) (hc : env.cache key = none) :
    cacheOrFetch env key (.ok v) ttl =
      ⟨.error .cacheSetErr,
       [.cacheGet key, .fetchInvoke, .cacheSet key v ttl], env.cache⟩ := by
  simp [cacheOrFetch, hg, hs, hc]

/-- Evaluation: a clean miss fetches, writes and returns. -/
lemma cacheOrFetch_miss_ok (env : Env) (key : String) (v : Json) (ttl : Nat)
    (hg : env.getFails = false) (hs : env.setFails = false) (hc : env.cache key = none) :
    cacheOrFetch env key (.ok v) ttl =
      ⟨.ok v, [.cacheGet key, .fetchInvoke, .cacheSet key v ttl],
       fun k => if k = key then some (v, ttl) else env.cache k⟩ := by
  simp [cacheOrFetch, hg, hs, hc]

/-- `SELECT ... FROM items ORDER BY created_at DESC`: items are held in
insertion order with store-assigned monotone timestamps, so newest-first is the
reverse of the list. -/
def queryAllJson (env : Env) : Json :=
  .arr ((env.storeItems.reverse).map Item.toJson)

/-- `SELECT ... FROM items WHERE id = $1` followed by `rows[0] || null`. -/
def queryByIdJson (env : Env) (id : Nat) : Json :=
  match env.storeItems.find? (fun it => it.id == id) with
  | some it => it.toJson
  | none => .null

/-- HTTP responses the handlers produce. -/
inductive HResp where
  | ok (body : Json)
  | created (body : Json)
  | noContent
  | badRequest
  | notFound
  | serverError

/-- The HTTP status code of a response. -/
def HResp.status : HResp → Nat
  | .ok _ => 200
  | .created _ => 201
  | .noContent => 204
  | .badRequest => 400
  | .notFound => 404
  | .serverError => 500

/-- Outcome of one handler invocation: the response, the adapter-call trace,
and the store and cache contents afterwards. -/
structure HOut where
  resp : HResp
  events : List Event
  store : List Item
  cache : Cache

/-- A request body after `const { name, description } = req.body`; `none`
models an absent field (`undefined`). -/
structure ReqBody where
  name : Option Json
  description : Option Json

/-- `GET /items` (lines 83-94): `cacheOrFetch('items:all', queryAll, 30)`;
any error reaching the handler's catch is answered with 500. -/
def getItems (env : Env) : HOut :=
  let fetch : Except Nat Json :=
    if env.storeFails then .error env.storeErr else .ok (queryAllJson env)
  let cf := cacheOrFetch env "items:all" fetch 30
  match cf.result with
  | .ok v => ⟨.ok v, cf.events, env.storeItems, cf.cache⟩
  | .error _ => ⟨.serverError, cf.events, env.storeItems, cf.cache⟩

/-- `GET /items/:id` (lines 118-138): `cacheOrFetch('items:' + id, queryById,
60)`, then `if (!item)` answers 404; any thrown error answers 500. -/
def getItemById (env : Env) (id : Nat) : HOut :=
  let fetch : Except Nat Json :=
    if env.storeFails then .error env.storeErr else .ok (queryByIdJson env id)
  let cf := cacheOrFetch env ("items:" ++ toString id) fetch 60
  match cf.result with
  | .ok item =>
      if item.truthy then ⟨.ok item, cf.events, env.storeItems, cf.cache⟩
      else ⟨.notFound, cf.events, env.storeItems, cf.cache⟩
  | .error _ => ⟨.serverError, cf.events, env.storeItems, cf.cache⟩

/-- `POST /items` (lines 97-116): validate `name`, insert with
`[name, description || null]`, then `await redis.del('items:all')`; a rejected
insert or del is caught and answered with 500 (the insert, once committed,
stays committed). -/
def postItems (env : Env) (body : ReqBody) : HOut :=
  if !(jsTruthy body.name) then ⟨.badRequest, [], env.storeItems, env.cache⟩
  else if env.storeFails then ⟨.serverError, [.storeInsert], env.storeItems, env.cache⟩
  else
    let it : Item :=
      { id := env.nextId, name := getVal body.name,
        description := orNull body.description, created_at := env.now }
    let store2 := env.storeItems ++ [it]
    if env.delFails then
      ⟨.serverError, [.storeInsert, .cacheDel "items:all"], store2, env.cache⟩
    else
      ⟨.created it.toJson, [.storeInsert, .cacheDel "items:all"], store2,
       env.cache.del "items:all"⟩

/-- `UPDATE items SET name = $1, description = $2 WHERE id = $3 RETURNING ...`:
the updated row and the new table, or `none` when no row matches. -/
def updateById (env : Env) (id : Nat) (name desc : Json) : Option (Item × List Item) :=
  match env.storeItems.find? (fun it => it.id == id) with
  | none => none
  | some it =>
      let it2 : Item := { it with name := name, description := desc }
      some (it2, env.storeItems.map (fun x => if x.id == id then it2 else x))

/-- `PUT /items/:id` (lines 141-169): validate `name`, update, 404 on zero
rows, else `Promise.all([del('items:all'), del('items:' + id)])`; a rejected
update or del is caught and answered with 500. -/
def putItem (env : Env) (id : Nat) (body : ReqBody) : HOut :=
  if !(jsTruthy body.name) then ⟨.badRequest, [], env.storeItems, env.cache⟩
  else if env.storeFails then ⟨.serverError, [.storeUpdate id], env.storeItems, env.cache⟩
  else
    match updateById env id (getVal body.name) (orNull body.description) with
    | none => ⟨.notFound, [.storeUpdate id], env.storeItems, env.cache⟩
    | some (it2, store2) =>
        if env.delFails then
          ⟨.serverError,
           [.storeUpdate id, .cacheDel "items:all", .cacheDel ("items:" ++ toString id)],
           store2, env.cache⟩
        else
          ⟨.ok it2.toJson,
           [.storeUpdate id, .cacheDel "items:all", .cacheDel ("items:" ++ toString id)],
           store2, (env.cache.del "items:all").del ("items:" ++ toString id)⟩

/-- `DELETE /items/:id` (lines 172-189): delete, 404 on `rowCount === 0`, else
`Promise.all` of the two dels and 204; a rejected query or del is caught and
answered with 500. -/
def deleteItem (env : Env) (id : Nat) : HOut :=
  if env.storeFails then ⟨.serverError, [.storeDelete id], env.storeItems, env.cache⟩
  else
    match env.storeItems.find? (fun it => it.id == id) with
    | none => ⟨.notFound, [.storeDelete id], env.storeItems, env.cache⟩
    | some _ =>
        let store2 := env.storeItems.filter (fun it => it.id != id)
        if env.delFails then
          ⟨.serverError,
           [.storeDelete id, .cacheDel "items:all", .cacheDel ("items:" ++ toString id)],
           store2, env.cache⟩
        else
          ⟨.noContent,
           [.storeDelete id, .cacheDel "items:all", .cacheDel ("items:" ++ toString id)],
           store2, (env.cache.del "items:all").del ("items:" ++ toString id)⟩

/-!
Justification of the cache model: `JSON.stringify` never returns the empty
string, so the blob stored by `redis.set(key, JSON.stringify(result), ...)` is
always truthy under `if (cached)`; presence of the key is therefore an exact
model of the source's truthiness test.
-/

/-- `Nat.toDigitsCore` with positive fuel always emits at least one digit. -/
lemma toDigitsCore_length_pos (b f n : Nat) (l : List Char) :
    0 < (Nat.toDigitsCore b (f + 1) n l).length := by
  if hx : n / b = 0 then
    simp [Nat.toDigitsCore, hx]
  else
    simp only [Nat.toDigitsCore, hx, if_false]
    rw [Nat.toDigitsCore_lens_eq]
    omega

/-- The decimal representation of a natural number is never empty. -/
lemma repr_length_pos (n : Nat) : 0 < (Nat.repr n).length :=
  toDigitsCore_length_pos 10 n n []

/-- The decimal representation of an integer is never empty. -/
lemma toString_int_length_pos (n : Int) : 0 < (toString n).length := by
  cases n with
  | ofNat m => exact repr_length_pos m
  | negSucc m =>
      show 0 < ("-" ++ toString (m + 1)).length
      rw [String.length_append]
      have h1 : ("-" : String).length = 1 := rfl
      omega

/-- `JSON.stringify` output always has positive length. -/
lemma stringify_length_pos (v : Json) : 0 < v.stringify.length := by
  cases v with
  | null => decide
  | bool b => cases b <;> decide
  | num n => exact toString_int_length_pos n
  | str s =>
      show 0 < ("\"" ++ s ++ "\"").length
      rw [String.length_append, String.length_append]
      have h1 : ("\"" : String).length = 1 := rfl
      omega
  | arr xs =>
      show 0 < ("[" ++ stringifyList xs ++ "]").length
      rw [String.length_append, String.length_append]
      have h1 : ("[" : String).length = 1 := rfl
      omega
  | obj fs =>
      show 0 < ("\x7b" ++ stringifyFields fs ++ "\x7d").length
      rw [String.length_append, String.length_append]
      have h1 : ("\x7b" : String).length = 1 := rfl
      omega

/-- A stored cache blob is never the empty string, hence never falsy. -/
lemma Json.stringify_ne_empty (v : Json) : v.stringify ≠ "" := by
  intro h
  have hp := stringify_length_pos v
  rw [h] at hp
  exact absurd hp (by decide)

/-!  Concrete environments used by the closed counterexamples and witnesses. -/

/-- Empty cache, empty store, every adapter healthy. -/
def env0 : Env :=
  { cache := fun _ => none, getFails := false, setFails := false, delFails := false,
    storeItems := [], nextId := 1, storeFails := false, storeErr := 0, now := "t0" }

/-- The stored row used by concrete write-path scenarios. -/
def item1 : Item :=
  { id := 1, name := .str "A", description := .str "desc A", created_at := "t1" }

/-- Healthy adapters, store holding `item1`. -/
def envOneItem : Env :=
  { env0 with storeItems := [item1], nextId := 2 }

/-- Healthy adapters, cache holding a value under `items:1`. -/
def envHit : Env :=
  { env0 with cache := fun k => if k = "items:1" then some (item1.toJson, 60) else none }

/-!  Claim theorems. -/

/-- Claim C6: when the cache lookup returns a present value, `cacheOrFetch`
returns that (deserialized) value without invoking the fetch function, the
only adapter call is the cache read (so the store is not touched), and the
cache is left unchanged. -/
theorem C6_cache_hit (env : Env) (key : String) (entry : Json × Nat)
    (fetch : Except Nat Json) (ttl : Nat)
    (hg : env.getFails = false) (hc : env.cache key = some entry) :
    (cacheOrFetch env key fetch ttl).result = .ok entry.1 ∧
    (cacheOrFetch env key fetch ttl).events = [.cacheGet key] ∧
    (cacheOrFetch env key fetch ttl).events.countP Event.isFetch = 0 ∧
    (cacheOrFetch env key fetch ttl).cache = env.cache := by
  simp [cacheOrFetch, hg, hc, List.countP_cons, List.countP_nil, Event.isFetch]

/-- Witness for C6 at a concrete input: the cache holds `item1` under
`items:1`, the fetch outcome is a store error, yet the call succeeds from
cache alone. -/
theorem C6_cache_hit_witness :
    (cacheOrFetch envHit "items:1" (.error 7) 60).result = .ok item1.toJson ∧
    (cacheOrFetch envHit "items:1" (.error 7) 60).events = [.cacheGet "items:1"] ∧
    (cacheOrFetch envHit "items:1" (.error 7) 60).events.countP Event.isFetch = 0 ∧
    (cacheOrFetch envHit "items:1" (.error 7) 60).cache = envHit.cache :=
  C6_cache_hit envHit "items:1" (item1.toJson, 60) (.error 7) 60 rfl rfl

/-- Claim C7: when the lookup misses and the fetch function fails, the
coordinator performs no cache write (the trace is exactly the read and the one
fetch invocation, so there is no retry), leaves the cache unchanged, and
rethrows the fetch failure uninterpreted. -/
theorem C7_fetch_failure (env : Env) (key : String) (e : Nat) (ttl : Nat)
    (hg : env.getFails = false) (hc : env.cache key = none) :
    (cacheOrFetch env key (.error e) ttl).result = .error (.fetchErr e) ∧
    (cacheOrFetch env key (.error e) ttl).events = [.cacheGet key, .fetchInvoke] ∧
    (cacheOrFetch env key (.error e) ttl).events.countP Event.isSet = 0 ∧
    (cacheOrFetch env key (.error e) ttl).events.countP Event.isFetch = 1 ∧
    (cacheOrFetch env key (.error e) ttl).cache = env.cache := by
  simp [cacheOrFetch, hg, hc, List.countP_cons, List.countP_nil, Event.isSet, Event.isFetch]

/-- Witness for C7 at a concrete input: empty cache, store error `5`. -/
theorem C7_fetch_failure_witness :
    (cacheOrFetch env0 "items:all" (.error 5) 30).result = .error (.fetchErr 5) ∧
    (cacheOrFetch env0 "items:all" (.error 5) 30).events =
      [.cacheGet "items:all", .fetchInvoke] ∧
    (cacheOrFetch env0 "items:all" (.error 5) 30).events.countP Event.isSet = 0 ∧
    (cacheOrFetch env0 "items:all" (.error 5) 30).events.countP Event.isFetch = 1 ∧
    (cacheOrFetch env0 "items:all" (.error 5) 30).cache = env0.cache :=
  C7_fetch_failure env0 "items:all" 5 30 rfl rfl

/-- On every path, `cacheOrFetch` invokes the fetch function at most once and
issues at most one cache write. -/
lemma cacheOrFetch_at_most_one (env : Env) (key : String) (fetch : Except Nat Json)
    (ttl : Nat) :
    (cacheOrFetch env key fetch ttl).events.countP Event.isFetch ≤ 1 ∧
    (cacheOrFetch env key fetch ttl).events.countP Event.isSet ≤ 1 := by
  cases h1 : env.getFails <;> cases h2 : env.cache key <;> cases fetch <;>
    cases h3 : env.setFails <;>
    simp [cacheOrFetch, h1, h2, h3, List.countP_cons, List.countP_nil,
          Event.isFetch, Event.isSet]

/-- Claim C5: on a cache miss, `cacheOrFetch` invokes the fetch function
exactly once, issues exactly one cache write storing the fetch result under
the key with the given TTL, and returns the fetch result; on every path there
is at most one fetch invocation and at most one cache write; the handlers
configure key `items:all` with TTL 30 and key `items:<id>` with TTL 60. -/
theorem C5_miss_populates (env : Env) (key : String) (v : Json) (ttl : Nat) (id : Nat)
    (hg : env.getFails = false) (hs : env.setFails = false)
    (hc : env.cache key = none) (hsf : env.storeFails = false)
    (hca : env.cache "items:all" = none)
    (hci : env.cache ("items:" ++ toString id) = none) :
    (cacheOrFetch env key (.ok v) ttl).result = .ok v ∧
    (cacheOrFetch env key (.ok v) ttl).cache key = some (v, ttl) ∧
    (cacheOrFetch env key (.ok v) ttl).events.countP Event.isFetch = 1 ∧
    (cacheOrFetch env key (.ok v) ttl).events.countP Event.isSet = 1 ∧
    (∀ env2 k f t, (cacheOrFetch env2 k f t).events.countP Event.isFetch ≤ 1 ∧
                   (cacheOrFetch env2 k f t).events.countP Event.isSet ≤ 1) ∧
    (getItems env).resp = .ok (queryAllJson env) ∧
    (getItems env).cache "items:all" = some (queryAllJson env, 30) ∧
    (getItemById env id).cache ("items:" ++ toString id) = some (queryByIdJson env id, 60) := by
  refine ⟨?_, ?_, ?_, ?_, fun env2 k f t => cacheOrFetch_at_most_one env2 k f t, ?_, ?_, ?_⟩
  · simp [cacheOrFetch, hg, hs, hc]
  · simp [cacheOrFetch, hg, hs, hc]
  · simp [cacheOrFetch, hg, hs, hc, List.countP_cons, List.countP_nil, Event.isFetch]
  · simp [cacheOrFetch, hg, hs, hc, List.countP_cons, List.countP_nil, Event.isSet]
  · simp [getItems, cacheOrFetch, hg, hs, hsf, hca]
  · simp [getItems, cacheOrFetch, hg, hs, hsf, hca]
  · have h := cacheOrFetch_miss_ok env ("items:" ++ toString id) (queryByIdJson env id) 60
      hg hs hci
    simp [getItemById, hsf, h]
    split <;> simp

/-- Witness for C5 at a concrete input: empty cache, store holding `item1`,
key `items:9` fetched as an explicit value. -/
theorem C5_miss_populates_witness :
    (cacheOrFetch envOneItem "items:9" (.ok (.str "w")) 45).result = .ok (.str "w") ∧
    (cacheOrFetch envOneItem "items:9" (.ok (.str "w")) 45).cache "items:9" =
      some (.str "w", 45) ∧
    (cacheOrFetch envOneItem "items:9" (.ok (.str "w")) 45).events.countP Event.isFetch = 1 ∧
    (cacheOrFetch envOneItem "items:9" (.ok (.str "w")) 45).events.countP Event.isSet = 1 ∧
    (∀ env2 k f t, (cacheOrFetch env2 k f t).events.countP Event.isFetch ≤ 1 ∧
                   (cacheOrFetch env2 k f t).events.countP Event.isSet ≤ 1) ∧
    (getItems envOneItem).resp = .ok (queryAllJson envOneItem) ∧
    (getItems envOneItem).cache "items:all" = some (queryAllJson envOneItem, 30) ∧
    (getItemById envOneItem 1).cache ("items:" ++ toString 1) =
      some (queryByIdJson envOneItem 1, 60) :=
  C5_miss_populates envOneItem "items:9" (.str "w") 45 1 rfl rfl rfl rfl rfl rfl

/-- Claim C1 counterexample: on `GET /items/7` against an empty store the
fetch returns the absent marker `null`, and the coordinator DOES write it to
the cache (`items:7` now holds `null` with TTL 60); the subsequent resolve for
the same key is a cache hit that performs zero fetch invocations — no store
round-trip — and still answers 404. -/
theorem C1_counterexample :
    (getItemById env0 7).resp = .notFound ∧
    (getItemById env0 7).cache "items:7" = some (.null, 60) ∧
    (getItemById { env0 with cache := (getItemById env0 7).cache } 7).events.countP
      Event.isFetch = 0 ∧
    (getItemById { env0 with cache := (getItemById env0 7).cache } 7).resp = .notFound :=
  ⟨rfl, rfl, rfl, rfl⟩

/-- Claim C1 as amended: when a miss's fetch returns the absent (`null`)
single-item result, the coordinator writes the serialized `null` to the cache
under the key with the configured TTL, and a subsequent resolve for the same
key (within the TTL) is a cache hit returning the cached absence without
invoking its fetch function. -/
theorem C1_absence_is_cached (env : Env) (key : String) (ttl : Nat)
    (f2 : Except Nat Json)
    (hg : env.getFails = false) (hs : env.setFails = false)
    (hc : env.cache key = none) :
    (cacheOrFetch env key (.ok .null) ttl).result = .ok .null ∧
    (cacheOrFetch env key (.ok .null) ttl).cache key = some (.null, ttl) ∧
    (cacheOrFetch { env with cache := (cacheOrFetch env key (.ok .null) ttl).cache }
      key f2 ttl).result = .ok .null ∧
    (cacheOrFetch { env with cache := (cacheOrFetch env key (.ok .null) ttl).cache }
      key f2 ttl).events.countP Event.isFetch = 0 := by
  have h1 := cacheOrFetch_miss_ok env key .null ttl hg hs hc
  have hwrite : (cacheOrFetch env key (.ok .null) ttl).cache key = some (.null, ttl) := by
    rw [h1]; simp
  have h2 := cacheOrFetch_hit { env with cache := (cacheOrFetch env key (.ok .null) ttl).cache }
    key (.null, ttl) f2 ttl hg hwrite
  refine ⟨?_, hwrite, ?_, ?_⟩
  · rw [h1]
  · rw [h2]
  · rw [h2]; simp [List.countP_cons, List.countP_nil, Event.isFetch]

/-- Witness for the amended C1 at a concrete input: key `items:7`, empty
cache, second fetch outcome an arbitrary non-null value. -/
theorem C1_absence_is_cached_witness :
    (cacheOrFetch env0 "items:7" (.ok .null) 60).result = .ok .null ∧
    (cacheOrFetch env0 "items:7" (.ok .null) 60).cache "items:7" = some (.null, 60) ∧
    (cacheOrFetch { env0 with cache := (cacheOrFetch env0 "items:7" (.ok .null) 60).cache }
      "items:7" (.ok (.str "later")) 60).result = .ok .null ∧
    (cacheOrFetch { env0 with cache := (cacheOrFetch env0 "items:7" (.ok .null) 60).cache }
      "items:7" (.ok (.str "later")) 60).events.countP Event.isFetch = 0 :=
  C1_absence_is_cached env0 "items:7" 60 (.ok (.str "later")) rfl rfl rfl

/-- Healthy store, but `redis.get` rejects. -/
def envGetFail : Env := { env0 with getFails := true }

/-- Healthy store, but `redis.set` rejects. -/
def envSetFail : Env := { env0 with setFails := true }

/-- Healthy store (holding `item1`), but `redis.del` rejects. -/
def envDelFail : Env := { envOneItem with delFails := true }

/-- A well-formed request body: `name` is `"X"`, `description` absent. -/
def bodyX : ReqBody := { name := some (.str "X"), description := none }

/-- Claim C2 counterexample: with the cache store unreachable on read the
coordinator does NOT proceed to fetch — the fetch function is never invoked,
the call aborts with the read error, and the `GET /items` handler answers 500
even though the store is healthy, so cache unavailability does make the
resource unavailable. -/
theorem C2_counterexample :
    (cacheOrFetch envGetFail "items:all" (.ok (.arr [])) 30).result =
      .error .cacheGetErr ∧
    (cacheOrFetch envGetFail "items:all" (.ok (.arr [])) 30).events.countP
      Event.isFetch = 0 ∧
    (getItems envGetFail).resp = .serverError ∧
    envGetFail.storeFails = false :=
  ⟨rfl, rfl, rfl, rfl⟩

/-- Claim C2 as amended: when the cache read fails, the failure is not treated
as a miss — the error propagates out of the coordinator, the fetch function is
never invoked (the trace is just the one cache read), and the read handler
answers 500. -/
theorem C2_get_failure_propagates (env : Env) (key : String) (fetch : Except Nat Json)
    (ttl : Nat) (hg : env.getFails = true) :
    (cacheOrFetch env key fetch ttl).result = .error .cacheGetErr ∧
    (cacheOrFetch env key fetch ttl).events = [.cacheGet key] ∧
    (cacheOrFetch env key fetch ttl).cache = env.cache ∧
    (getItems env).resp = .serverError := by
  have h := cacheOrFetch_getfail env key fetch ttl hg
  have h2 := cacheOrFetch_getfail env "items:all"
    (if env.storeFails then .error env.storeErr else .ok (queryAllJson env)) 30 hg
  refine ⟨by rw [h], by rw [h], by rw [h], ?_⟩
  simp [getItems, h2]

/-- Witness for the amended C2 at a concrete input. -/
theorem C2_get_failure_propagates_witness :
    (cacheOrFetch envGetFail "items:1" (.ok (.str "v")) 60).result =
      .error .cacheGetErr ∧
    (cacheOrFetch envGetFail "items:1" (.ok (.str "v")) 60).events =
      [.cacheGet "items:1"] ∧
    (cacheOrFetch envGetFail "items:1" (.ok (.str "v")) 60).cache = envGetFail.cache ∧
    (getItems envGetFail).resp = .serverError :=
  C2_get_failure_propagates envGetFail "items:1" (.ok (.str "v")) 60 rfl

/-- Claim C3 counterexample: the fetch succeeds with a fresh value but the
cache write is rejected; the write failure is NOT swallowed — the coordinator
aborts with the set error instead of returning the fetched value, and the
`GET /items/:id` handler answers 500. -/
theorem C3_counterexample :
    (cacheOrFetch envSetFail "items:5" (.ok (.str "fresh")) 60).result =
      .error .cacheSetErr ∧
    (cacheOrFetch envSetFail "items:5" (.ok (.str "fresh")) 60).result ≠
      .ok (.str "fresh") ∧
    (getItemById envSetFail 5).resp = .serverError :=
  ⟨rfl, by
    intro h
    rw [show (cacheOrFetch envSetFail "items:5" (.ok (.str "fresh")) 60).result =
      Except.error CFError.cacheSetErr from rfl] at h
    exact Except.noConfusion h, rfl⟩

/-- Claim C3 as amended: when the fetch succeeds but the subsequent cache
write fails, the write failure propagates out of the coordinator — the freshly
fetched value is not returned — and the cache is left unchanged. -/
theorem C3_set_failure_propagates (env : Env) (key : String) (v : Json) (ttl : Nat)
    (hg : env.getFails = false) (hs : env.setFails = true) (hc : env.cache key = none) :
    (cacheOrFetch env key (.ok v) ttl).result = .error .cacheSetErr ∧
    (cacheOrFetch env key (.ok v) ttl).result ≠ .ok v ∧
    (cacheOrFetch env key (.ok v) ttl).cache = env.cache ∧
    (cacheOrFetch env key (.ok v) ttl).events =
      [.cacheGet key, .fetchInvoke, .cacheSet key v ttl] := by
  have h := cacheOrFetch_miss_setfail env key v ttl hg hs hc
  refine ⟨by rw [h], by rw [h]; simp, by rw [h], by rw [h]⟩

/-- Witness for the amended C3 at a concrete input. -/
theorem C3_set_failure_propagates_witness :
    (cacheOrFetch envSetFail "items:5" (.ok (.str "fresh")) 60).result =
      .error .cacheSetErr ∧
    (cacheOrFetch envSetFail "items:5" (.ok (.str "fresh")) 60).result ≠
      .ok (.str "fresh") ∧
    (cacheOrFetch envSetFail "items:5" (.ok (.str "fresh")) 60).cache =
      envSetFail.cache ∧
    (cacheOrFetch envSetFail "items:5" (.ok (.str "fresh")) 60).events =
      [.cacheGet "items:5", .fetchInvoke, .cacheSet "items:5" (.str "fresh") 60] :=
  C3_set_failure_propagates envSetFail "items:5" (.str "fresh") 60 rfl rfl rfl

/-- Claim C4 counterexample: on `POST /items` the insert commits (the row is
in the store afterwards) but the subsequent `redis.del` rejects; the handler
answers 500, not its 201 success response, so the invalidation failure IS
surfaced to the caller. -/
theorem C4_counterexample :
    (postItems envDelFail bodyX).resp = .serverError ∧
    (postItems envDelFail bodyX).resp.status = 500 ∧
    (postItems envDelFail bodyX).store =
      [item1, { id := 2, name := .str "X", description := .null, created_at := "t0" }] :=
  ⟨rfl, rfl, rfl⟩

/-- Claim C4 as amended: for a write-path request whose store mutation
succeeds, a failure of the subsequent cache invalidation is surfaced to the
caller as a 500 error response (while the store mutation remains committed). -/
theorem C4_invalidation_failure_surfaced (env : Env) (body : ReqBody) (id : Nat)
    (it : Item)
    (hn : jsTruthy body.name = true) (hsf : env.storeFails = false)
    (hdf : env.delFails = true) :
    (postItems env body).resp = .serverError ∧
    (postItems env body).store = env.storeItems ++
      [⟨env.nextId, getVal body.name, orNull body.description, env.now⟩] ∧
    (env.storeItems.find? (fun x => x.id == id) = some it →
      (putItem env id body).resp = .serverError ∧
      (deleteItem env id).resp = .serverError ∧
      (deleteItem env id).store = env.storeItems.filter (fun x => x.id != id)) := by
  refine ⟨?_, ?_, fun hfound => ⟨?_, ?_, ?_⟩⟩
  · simp [postItems, hn, hsf, hdf]
  · simp [postItems, hn, hsf, hdf]
  · simp [putItem, updateById, hn, hsf, hdf, hfound]
  · simp [deleteItem, hsf, hdf, hfound]
  · simp [deleteItem, hsf, hdf, hfound]

/-- Witness for the amended C4 at a concrete input: store holding `item1`,
`redis.del` rejecting, id 1. -/
theorem C4_invalidation_failure_surfaced_witness :
    (postItems envDelFail bodyX).resp = .serverError ∧
    (postItems envDelFail bodyX).store = envDelFail.storeItems ++
      [⟨envDelFail.nextId, getVal bodyX.name, orNull bodyX.description, envDelFail.now⟩] ∧
    (envDelFail.storeItems.find? (fun x => x.id == 1) = some item1 →
      (putItem envDelFail 1 bodyX).resp = .serverError ∧
      (deleteItem envDelFail 1).resp = .serverError ∧
      (deleteItem envDelFail 1).store = envDelFail.storeItems.filter (fun x => x.id != 1)) :=
  C4_invalidation_failure_surfaced envDelFail bodyX 1 item1 rfl rfl rfl

/-- Claim C8: a Replace or Delete whose store mutation matches zero rows
answers 404 and performs no cache invalidation — the trace is just the store
call, with zero `redis.del` calls, and the cache is untouched. -/
theorem C8_notfound_short_circuits (env : Env) (id : Nat) (body : ReqBody)
    (hn : jsTruthy body.name = true) (hsf : env.storeFails = false)
    (hmiss : env.storeItems.find? (fun it => it.id == id) = none) :
    (putItem env id body).resp = .notFound ∧
    (putItem env id body).resp.status = 404 ∧
    (putItem env id body).events = [.storeUpdate id] ∧
    (putItem env id body).events.countP Event.isDel = 0 ∧
    (putItem env id body).cache = env.cache ∧
    (deleteItem env id).resp = .notFound ∧
    (deleteItem env id).resp.status = 404 ∧
    (deleteItem env id).events = [.storeDelete id] ∧
    (deleteItem env id).events.countP Event.isDel = 0 ∧
    (deleteItem env id).cache = env.cache := by
  refine ⟨?_, ?_, ?_, ?_, ?_, ?_, ?_, ?_, ?_, ?_⟩ <;>
    simp [putItem, deleteItem, updateById, HResp.status, hn, hsf, hmiss,
          List.countP_cons, List.countP_nil, Event.isDel]

/-- Witness for C8 at a concrete input: `PUT /items/999` and
`DELETE /items/999` against the store holding only `item1`. -/
theorem C8_notfound_short_circuits_witness :
    (putItem envOneItem 999 bodyX).resp = .notFound ∧
    (putItem envOneItem 999 bodyX).resp.status = 404 ∧
    (putItem envOneItem 999 bodyX).events = [.storeUpdate 999] ∧
    (putItem envOneItem 999 bodyX).events.countP Event.isDel = 0 ∧
    (putItem envOneItem 999 bodyX).cache = envOneItem.cache ∧
    (deleteItem envOneItem 999).resp = .notFound ∧
    (deleteItem envOneItem 999).resp.status = 404 ∧
    (deleteItem envOneItem 999).events = [.storeDelete 999] ∧
    (deleteItem envOneItem 999).events.countP Event.isDel = 0 ∧
    (deleteItem envOneItem 999).cache = envOneItem.cache :=
  C8_notfound_short_circuits envOneItem 999 bodyX rfl rfl rfl

/-- Claim C9: on every successful write the adapter trace places the store
mutation strictly before every invalidation, and the invalidated key sets are
exactly as specified — Create deletes `items:all`; Replace and Delete delete
`items:all` and `items:<id>` — with the handler answering its success
status (201 / 200 / 204). -/
theorem C9_invalidate_after_commit (env : Env) (body : ReqBody) (id : Nat) (it : Item)
    (hn : jsTruthy body.name = true) (hsf : env.storeFails = false)
    (hdf : env.delFails = false)
    (hfound : env.storeItems.find? (fun x => x.id == id) = some it) :
    (postItems env body).events = [.storeInsert, .cacheDel "items:all"] ∧
    (postItems env body).resp.status = 201 ∧
    (putItem env id body).events =
      [.storeUpdate id, .cacheDel "items:all", .cacheDel ("items:" ++ toString id)] ∧
    (putItem env id body).resp.status = 200 ∧
    (deleteItem env id).events =
      [.storeDelete id, .cacheDel "items:all", .cacheDel ("items:" ++ toString id)] ∧
    (deleteItem env id).resp.status = 204 := by
  refine ⟨?_, ?_, ?_, ?_, ?_, ?_⟩ <;>
    simp [postItems, putItem, deleteItem, updateById, HResp.status, hn, hsf, hdf, hfound]

/-- Witness for C9 at a concrete input: healthy adapters, store holding
`item1`, id 1. -/
theorem C9_invalidate_after_commit_witness :
    (postItems envOneItem bodyX).events = [.storeInsert, .cacheDel "items:all"] ∧
    (postItems envOneItem bodyX).resp.status = 201 ∧
    (putItem envOneItem 1 bodyX).events =
      [.storeUpdate 1, .cacheDel "items:all", .cacheDel ("items:" ++ toString 1)] ∧
    (putItem envOneItem 1 bodyX).resp.status = 200 ∧
    (deleteItem envOneItem 1).events =
      [.storeDelete 1, .cacheDel "items:all", .cacheDel ("items:" ++ toString 1)] ∧
    (deleteItem envOneItem 1).resp.status = 204 :=
  C9_invalidate_after_commit envOneItem bodyX 1 item1 rfl rfl rfl rfl

/-- A falsy `description` is coerced to `null` by `description || null`. -/
lemma orNull_eq_null (d : Option Json) (hd : jsTruthy d = false) : orNull d = .null := by
  cases d with
  | none => rfl
  | some v =>
      simp only [jsTruthy] at hd
      simp [orNull, hd]

/-- Claim C10: on Create and Replace, a falsy `description` (absent, `null`,
`""`, `0` or `false`) is coerced by `description || null` to SQL `NULL` — the
stored row and the returned record both carry a `null` description. -/
theorem C10_falsy_description_null (env : Env) (id : Nat) (body : ReqBody) (it : Item)
    (hn : jsTruthy body.name = true) (hd : jsTruthy body.description = false)
    (hsf : env.storeFails = false) (hdf : env.delFails = false) :
    orNull body.description = .null ∧
    (postItems env body).resp =
      .created (Item.toJson ⟨env.nextId, getVal body.name, .null, env.now⟩) ∧
    (postItems env body).store = env.storeItems ++
      [⟨env.nextId, getVal body.name, .null, env.now⟩] ∧
    (env.storeItems.find? (fun x => x.id == id) = some it →
      (putItem env id body).resp =
        .ok (Item.toJson { it with name := getVal body.name, description := .null }) ∧
      (putItem env id body).store = env.storeItems.map
        (fun x => if x.id == id
          then { it with name := getVal body.name, description := .null } else x)) := by
  have ho := orNull_eq_null body.description hd
  refine ⟨ho, ?_, ?_, fun hfound => ⟨?_, ?_⟩⟩
  · simp [postItems, hn, hsf, hdf, ho]
  · simp [postItems, hn, hsf, hdf, ho]
  · simp [putItem, updateById, hn, hsf, hdf, hfound, ho]
  · simp [putItem, updateById, hn, hsf, hdf, hfound, ho]

/-- A body whose `description` is the explicitly supplied empty string. -/
def bodyEmptyDesc : ReqBody := { name := some (.str "X"), description := some (.str "") }

/-- Witness for C10 at a concrete input: `description` explicitly supplied as
the empty string is silently stored and returned as `null`. -/
theorem C10_falsy_description_null_witness :
    orNull bodyEmptyDesc.description = .null ∧
    (postItems envOneItem bodyEmptyDesc).resp =
      .created (Item.toJson ⟨envOneItem.nextId, getVal bodyEmptyDesc.name, .null,
        envOneItem.now⟩) ∧
    (postItems envOneItem bodyEmptyDesc).store = envOneItem.storeItems ++
      [⟨envOneItem.nextId, getVal bodyEmptyDesc.name, .null, envOneItem.now⟩] ∧
    (envOneItem.storeItems.find? (fun x => x.id == 1) = some item1 →
      (putItem envOneItem 1 bodyEmptyDesc).resp =
        .ok (Item.toJson
          { item1 with name := getVal bodyEmptyDesc.name, description := .null }) ∧
      (putItem envOneItem 1 bodyEmptyDesc).store = envOneItem.storeItems.map
        (fun x =>
          if x.id == 1
          then { item1 with name := getVal bodyEmptyDesc.name, description := .null }
          else x)) :=
  C10_falsy_description_null envOneItem 1 bodyEmptyDesc item1 rfl rfl rfl rfl

end CacheAside
